import Mathlib

/-! goRESTful: the five handlers of `crud.go`

A shallow embedding of `src/src/crud.go`.  The program is a gin router with five
handlers over one gorp-mapped table.  The data store (`dbmap`) and the HTTP
transport are collaborators outside the file, so

* the store is a record of operations over an arbitrary state type `σ`
  (`DbMap σ`): the two reads observe the state, the three writes return a new
  state together with what the Go call returns;
* the request is reduced to what the handler reads from it: the route
  parameter (a string) and, for the body, what `c.Bind` leaves behind: the
  struct it filled and the error it returned;
* a handler run yields the store calls it issued (in order), what went out on
  the HTTP side (a reply, `log.Fatalln`, or nothing) and the final store state.

`c.Bind` is gin's.  On a body that fails to decode it answers with
`c.AbortWithError(400, err)`, which writes the status line 400 at once; the
handlers do not read the value it returns and run on, so a later `c.JSON`
only adds its body under that status line.  The decoder fills the fields it
can before it reports an error, so every pair of struct and error can occur.

`fmt.Printf` in `GetUser` only writes to standard output and is left out.
-/

namespace GoRESTful

/-! ## Data model -/

/-- Go `error` values; `none` is `nil`. -/
abbrev GoError := Option String

/-- The struct `crudtest_struct` (`Id int64`, `Firstname string`, `Lastname string`). -/
structure crudtest_struct where
  Id : Int
  Firstname : String
  Lastname : String
deriving DecidableEq, Repr

/-- The part of `sql.Result` that `PostUser` consults: the pair returned by
`LastInsertId()`. -/
structure SqlResult where
  LastInsertId : Int × GoError
deriving DecidableEq, Repr

/-- The store calls a handler can issue on `dbmap`, with their arguments. -/
inductive StoreCall where
  | Select (query : String)
  | SelectOne (query : String) (arg : String)
  | Exec (query : String) (args : List String)
  | Update (row : crudtest_struct)
  | Delete (row : crudtest_struct)
deriving DecidableEq, Repr

/-- The store behind `dbmap`, over an arbitrary state `σ`.  Each field returns
what the Go method returns (the holder filled by `Select`/`SelectOne` counts as
a return value); the writes also return the next state. -/
structure DbMap (σ : Type) where
  Select : String → σ → List crudtest_struct × GoError
  SelectOne : String → String → σ → crudtest_struct × GoError
  Exec : String → List String → σ → (Option SqlResult × GoError) × σ
  Update : crudtest_struct → σ → (Int × GoError) × σ
  Delete : crudtest_struct → σ → (Int × GoError) × σ

/-- The values handed to `c.JSON`: a slice of records, one record, or a `gin.H`
map given by its entries. -/
inductive Body where
  | rows (rs : List crudtest_struct)
  | row (r : crudtest_struct)
  | H (entries : List (String × String))
deriving DecidableEq, Repr

/-- What went out on the HTTP side: a reply with a status line and a rendered
body, the end of the process through `checkErr` (`log.Fatalln msg err`), a
status line with no body after it (the 400 of a failed `c.Bind` in a handler
that then returns without `c.JSON`), or nothing written at all. -/
inductive Outcome where
  | JSON (status : Nat) (body : Body)
  | Fatalln (msg : String) (err : String)
  | status (code : Nat)
  | silent
deriving DecidableEq, Repr

/-- One handler invocation: the store calls issued in order, the outcome, and
the store state afterwards. -/
structure Run (σ : Type) where
  calls : List StoreCall
  outcome : Outcome
  db : σ

/-! ## `strconv.ParseInt(s, 0, 64)`

`UpdateUser` converts the route parameter with the Go standard library.  The
definitions below follow `strconv/atoi.go` (Go 1.13 and later) for `base = 0`,
`bitSize = 64`, on the bytes of the string.  Earlier releases differ only in
rejecting the `0b`/`0o` prefixes and underscores; a bare leading `0` selects
octal and `0x` hexadecimal in all of them. -/

/-- The two error kinds of `strconv.NumError`. -/
inductive NumError where
  | ErrSyntax
  | ErrRange
deriving DecidableEq, Repr

/-- Bytes of a Go string. -/
def bytes (s : String) : List Nat :=
  s.toUTF8.data.toList.map UInt8.toNat

/-- Go: `lower(c) = c | ('x' - 'X')`. -/
def lower (c : Nat) : Nat := c ||| 32

def maxUint64 : Nat := 2 ^ 64 - 1

/-- Digit value of a byte in `ParseUint`, `none` for the `default` branch. -/
def digitVal (c : Nat) : Option Nat :=
  if 48 ≤ c ∧ c ≤ 57 then some (c - 48)
  else if 97 ≤ lower c ∧ lower c ≤ 122 then some (lower c - 97 + 10)
  else none

/-- The digit loop of `ParseUint`: `n` is the accumulator, `us` records whether
an underscore was skipped.  Returns the value and the underscore flag, or the
value returned together with an error. -/
def parseUintLoop (base : Nat) (base0 : Bool) (cutoff maxVal : Nat) :
    List Nat → Nat → Bool → (Nat × Bool) ⊕ (Nat × NumError)
  | [], n, us => .inl (n, us)
  | c :: cs, n, us =>
    if c = 95 ∧ base0 = true then parseUintLoop base base0 cutoff maxVal cs n true
    else
      match digitVal c with
      | none => .inr (0, .ErrSyntax)
      | some d =>
        if d ≥ base then .inr (0, .ErrSyntax)
        else if n ≥ cutoff then .inr (maxVal, .ErrRange)
        else
          let n0 := (n * base) % 2 ^ 64
          let n1 := (n0 + d) % 2 ^ 64
          if n1 < n0 ∨ n1 > maxVal then .inr (maxVal, .ErrRange)
          else parseUintLoop base base0 cutoff maxVal cs n1 us

/-- The scan of `underscoreOK` from position `i` on: `saw` is the last
character class seen (`'^'`, `'0'`, `'_'` or `'!'`). -/
def underscoreScan (hex : Bool) : List Nat → Char → Bool
  | [], saw => saw != '_'
  | c :: cs, saw =>
    if (48 ≤ c ∧ c ≤ 57) ∨ (hex = true ∧ 97 ≤ lower c ∧ lower c ≤ 102) then
      underscoreScan hex cs '0'
    else if c = 95 then
      if saw != '0' then false else underscoreScan hex cs '_'
    else if saw == '_' then false
    else underscoreScan hex cs '!'

/-- Go `underscoreOK`: underscores only between digits or between a base
prefix and a digit. -/
def underscoreOK (s : List Nat) : Bool :=
  let s := match s with
    | c :: rest => if c = 45 ∨ c = 43 then rest else s
    | [] => s
  match s with
  | 48 :: c1 :: rest =>
    if lower c1 = 98 ∨ lower c1 = 111 ∨ lower c1 = 120 then
      underscoreScan (lower c1 = 120) rest '0'
    else underscoreScan false s '^'
  | _ => underscoreScan false s '^'

/-- Go `strconv.ParseUint(s, 0, 64)`: the value and the error.  The base is
read off the prefix (`0b`, `0o`, `0x`, a bare leading `0` for octal, decimal
otherwise). -/
def ParseUint (s : List Nat) : Nat × Option NumError :=
  match s with
  | [] => (0, some .ErrSyntax)
  | c0 :: tl =>
    let (base, digits) : Nat × List Nat :=
      if c0 = 48 then
        match tl with
        | c1 :: c2 :: rest =>
          if lower c1 = 98 then (2, c2 :: rest)
          else if lower c1 = 111 then (8, c2 :: rest)
          else if lower c1 = 120 then (16, c2 :: rest)
          else (8, tl)
        | _ => (8, tl)
      else (10, s)
    let cutoff := maxUint64 / base + 1
    let maxVal := maxUint64
    match parseUintLoop base true cutoff maxVal digits 0 false with
    | .inr (v, e) => (v, some e)
    | .inl (n, underscores) =>
      if underscores = true ∧ underscoreOK s = false then (0, some .ErrSyntax)
      else (n, none)

/-- Conversion `int64(x)` of an integer: wrap into `[-2^63, 2^63)`. -/
def int64 (x : Int) : Int := (x + 2 ^ 63) % 2 ^ 64 - 2 ^ 63

/-- Go `strconv.ParseInt(s, 0, 64)`: the value and the error. -/
def ParseInt (s : String) : Int × Option NumError :=
  match bytes s with
  | [] => (0, some .ErrSyntax)
  | c0 :: tl =>
    let neg := decide (c0 = 45)
    let rest := if c0 = 43 then tl else if c0 = 45 then tl else c0 :: tl
    match ParseUint rest with
    | (_, some .ErrSyntax) => (0, some .ErrSyntax)
    | (un, _) =>
      let cutoff : Nat := 2 ^ 63
      if neg = false ∧ un ≥ cutoff then ((cutoff : Int) - 1, some .ErrRange)
      else if neg = true ∧ un > cutoff then (-(cutoff : Int), some .ErrRange)
      else
        let n := int64 un
        (if neg then int64 (-n) else n, none)

/-! ## The handlers -/

/-- Function `checkErr`: `log.Fatalln(msg, err)` when `err != nil`.  With a nil
error it returns and the caller runs on to its end, nothing written. -/
def checkErr (err : GoError) (msg : String) : Outcome :=
  match err with
  | some e => .Fatalln msg e
  | none => .silent

/-- Method `c.Bind(&obj)` of gin, as far as the reply goes: the status line
written once it has returned `bindErr`.  A body that fails to decode is
answered with `c.AbortWithError(400, err)`; a body that decodes writes
nothing. -/
def c_Bind (bindErr : GoError) : Option Nat :=
  match bindErr with
  | some _ => some 400
  | none => none

/-- Method `c.JSON(code, obj)` of gin on a writer whose status line is
`written`: a status line already written stays, and `obj` is rendered after
it; otherwise the status line is `code`. -/
def c_JSON (written : Option Nat) (code : Nat) (obj : Body) : Outcome :=
  match written with
  | some sent => .JSON sent obj
  | none => .JSON code obj

/-- The handler returns without a call of `c.JSON`, on a writer whose status
line is `written`. -/
def c_return (written : Option Nat) : Outcome :=
  match written with
  | some sent => .status sent
  | none => .silent

/-- Handler `GetUsers`: `GET /api`. -/
def GetUsers {σ : Type} (dbmap : DbMap σ) (db : σ) : Run σ :=
  let query := "SELECT * FROM crudtest_struct"
  match dbmap.Select query db with
  | (crudtest_GetUsers, none) =>
    ⟨[.Select query], .JSON 200 (.rows crudtest_GetUsers), db⟩
  | (_, some _) =>
    ⟨[.Select query], .JSON 404 (.H [("error", "not able to find in the table")]), db⟩

/-- Handler `GetUser`: `GET /api/:whereclause`. -/
def GetUser {σ : Type} (dbmap : DbMap σ) (whereclause : String) (db : σ) : Run σ :=
  let query := "SELECT * FROM crudtest_struct WHERE " ++ whereclause
  match dbmap.Select query db with
  | (crudtest_GetUser, none) =>
    ⟨[.Select query], .JSON 200 (.rows crudtest_GetUser), db⟩
  | (_, some _) =>
    ⟨[.Select query], .JSON 404 (.H [("error", "content not found")]), db⟩

/-- Handler `PostUser`: `POST /api`.  `crudtest_PostUser` is the struct after
`c.Bind` and `bindErr` the error `c.Bind` returned, which the handler does not
read.  The error of `dbmap.Exec` is dropped (`insert, _ :=`); only
`insert != nil` is tested, and that `if` has no `else`. -/
def PostUser {σ : Type} (dbmap : DbMap σ) (crudtest_PostUser : crudtest_struct)
    (bindErr : GoError) (db : σ) : Run σ :=
  if crudtest_PostUser.Firstname ≠ "" ∧ crudtest_PostUser.Lastname ≠ "" then
    let query := "INSERT INTO crudtest_struct (firstname, lastname) VALUES (?, ?)"
    let args := [crudtest_PostUser.Firstname, crudtest_PostUser.Lastname]
    match dbmap.Exec query args db with
    | ((some insert, _), db1) =>
      match insert.LastInsertId with
      | (crudtest_PostUser_id, none) =>
        let content : crudtest_struct :=
          { Id := crudtest_PostUser_id
            Firstname := crudtest_PostUser.Firstname
            Lastname := crudtest_PostUser.Lastname }
        ⟨[.Exec query args], c_JSON (c_Bind bindErr) 201 (.row content), db1⟩
      | (_, some err) => ⟨[.Exec query args], checkErr (some err) "Insert failed", db1⟩
    | ((none, _), db1) => ⟨[.Exec query args], c_return (c_Bind bindErr), db1⟩
  else
    ⟨[], c_JSON (c_Bind bindErr) 422 (.H [("error", "fields are empty")]), db⟩

/-- Handler `UpdateUser`: `PUT /api/:id`.  `json` is the struct after `c.Bind`
and `bindErr` the error `c.Bind` returned; `c.Bind` is called only after a
lookup without error.  The record filled by `SelectOne` is shadowed by the one
built from the parsed route parameter; the error of `strconv.ParseInt` is
dropped. -/
def UpdateUser {σ : Type} (dbmap : DbMap σ) (id : String) (json : crudtest_struct)
    (bindErr : GoError) (db : σ) : Run σ :=
  let query := "SELECT * FROM crudtest_struct WHERE id=?"
  match dbmap.SelectOne query id db with
  | (_, none) =>
    let crudtest_UpdateUser_id := (ParseInt id).1
    let crudtest_UpdateUser : crudtest_struct :=
      { Id := crudtest_UpdateUser_id
        Firstname := json.Firstname
        Lastname := json.Lastname }
    if crudtest_UpdateUser.Firstname ≠ "" ∧ crudtest_UpdateUser.Lastname ≠ "" then
      match dbmap.Update crudtest_UpdateUser db with
      | ((_, none), db1) =>
        ⟨[.SelectOne query id, .Update crudtest_UpdateUser],
          c_JSON (c_Bind bindErr) 200 (.row crudtest_UpdateUser), db1⟩
      | ((_, some err), db1) =>
        ⟨[.SelectOne query id, .Update crudtest_UpdateUser],
          checkErr (some err) "Update failed", db1⟩
    else
      ⟨[.SelectOne query id],
        c_JSON (c_Bind bindErr) 422 (.H [("error", "fields are empty")]), db⟩
  | (_, some _) =>
    ⟨[.SelectOne query id], .JSON 404 (.H [("error", "content not found")]), db⟩

/-- Handler `DeleteUser`: `DELETE /api/:id`.  The record handed to
`dbmap.Delete` is the one `SelectOne` filled. -/
def DeleteUser {σ : Type} (dbmap : DbMap σ) (id : String) (db : σ) : Run σ :=
  let query := "SELECT id FROM crudtest_struct WHERE id=?"
  match dbmap.SelectOne query id db with
  | (crudtest_DeleteUser, none) =>
    match dbmap.Delete crudtest_DeleteUser db with
    | ((_, none), db1) =>
      ⟨[.SelectOne query id, .Delete crudtest_DeleteUser],
        .JSON 200 (.H [("id #" ++ id, " deleted")]), db1⟩
    | ((_, some err), db1) =>
      ⟨[.SelectOne query id, .Delete crudtest_DeleteUser],
        checkErr (some err) "Delete failed", db1⟩
  | (_, some _) =>
    ⟨[.SelectOne query id], .JSON 404 (.H [("error", "content not found")]), db⟩

/-- A call that writes to the store: the insert, the update or the delete. -/
def StoreCall.isWrite : StoreCall → Bool
  | .Exec _ _ => true
  | .Update _ => true
  | .Delete _ => true
  | _ => false

/-! ## An in-memory table

A store over a list of rows, used to run the handlers on concrete inputs.
The lookup compares the key column with the decimal value of the string
argument, the way the SQL comparison `id = '010'` selects row 10. -/

/-- Decimal value of a string of digits, `none` if it has another character. -/
def decimal? (s : String) : Option Int :=
  let ds := bytes s
  if ds ≠ [] ∧ ds.all (fun c => decide (48 ≤ c ∧ c ≤ 57)) = true then
    some (ds.foldl (fun (n : Int) c => 10 * n + ((c : Int) - 48)) 0)
  else none

/-- Table state: the rows and the next auto-increment key. -/
structure Table where
  rows : List crudtest_struct
  nextId : Int
deriving DecidableEq, Repr

/-- The in-memory table as a `DbMap`. -/
def tableDb : DbMap Table where
  Select := fun _ t => (t.rows, none)
  SelectOne := fun _ arg t =>
    match decimal? arg with
    | some k =>
      match t.rows.find? (fun r => decide (r.Id = k)) with
      | some r => (r, none)
      | none => (⟨0, "", ""⟩, some "sql: no rows in result set")
    | none => (⟨0, "", ""⟩, some "sql: no rows in result set")
  Exec := fun _ args t =>
    match args with
    | [fn, ln] =>
      ((some ⟨(t.nextId, none)⟩, none),
        { rows := t.rows ++ [⟨t.nextId, fn, ln⟩], nextId := t.nextId + 1 })
    | _ => ((none, some "sql: wrong number of arguments"), t)
  Update := fun row t =>
    ((((t.rows.filter (fun r => decide (r.Id = row.Id))).length : Int), none),
      { t with rows := t.rows.map (fun r => if r.Id = row.Id then row else r) })
  Delete := fun row t =>
    ((((t.rows.filter (fun r => decide (r.Id = row.Id))).length : Int), none),
      { t with rows := t.rows.filter (fun r => decide (r.Id ≠ row.Id)) })

/-- A store whose every call fails: reads and writes return an error, `Exec`
returns a nil result. -/
def downDb : DbMap Unit where
  Select := fun _ _ => ([], some "driver: bad connection")
  SelectOne := fun _ _ _ => (⟨0, "", ""⟩, some "driver: bad connection")
  Exec := fun _ _ _ => ((none, some "driver: bad connection"), ())
  Update := fun _ _ => ((0, some "driver: bad connection"), ())
  Delete := fun _ _ => ((0, some "driver: bad connection"), ())

/-- A store whose lookups succeed and whose writes fail; `Exec` returns a
result whose `LastInsertId` fails. -/
def failingWritesDb : DbMap Unit where
  Select := fun _ _ => ([], none)
  SelectOne := fun _ _ _ => (⟨1, "Ken", "Thompson"⟩, none)
  Exec := fun _ _ _ => ((some ⟨(0, some "no insert id available")⟩, none), ())
  Update := fun _ _ => ((0, some "driver: bad connection"), ())
  Delete := fun _ _ => ((0, some "driver: bad connection"), ())

/-- Sample table: rows 8 and 10. -/
def sampleTable : Table :=
  { rows := [⟨8, "Rob", "Pike"⟩, ⟨10, "Ken", "Thompson"⟩], nextId := 11 }

/-! ## Unfolding lemmas for the handlers -/

theorem PostUser_of_empty {σ : Type} (dbmap : DbMap σ) (body : crudtest_struct)
    (bindErr : GoError) (db : σ) (h : body.Firstname = "" ∨ body.Lastname = "") :
    PostUser dbmap body bindErr db =
      ⟨[], c_JSON (c_Bind bindErr) 422 (.H [("error", "fields are empty")]), db⟩ := by
  unfold PostUser
  rw [if_neg]
  rintro ⟨h1, h2⟩
  rcases h with h | h
  · exact h1 h
  · exact h2 h

theorem PostUser_of_valid {σ : Type} (dbmap : DbMap σ) (body : crudtest_struct)
    (bindErr : GoError) (db : σ) (hfn : body.Firstname ≠ "") (hln : body.Lastname ≠ "") :
    PostUser dbmap body bindErr db =
      match dbmap.Exec "INSERT INTO crudtest_struct (firstname, lastname) VALUES (?, ?)"
          [body.Firstname, body.Lastname] db with
      | ((some insert, _), db1) =>
        match insert.LastInsertId with
        | (newId, none) =>
          ⟨[.Exec "INSERT INTO crudtest_struct (firstname, lastname) VALUES (?, ?)"
              [body.Firstname, body.Lastname]],
            c_JSON (c_Bind bindErr) 201 (.row ⟨newId, body.Firstname, body.Lastname⟩), db1⟩
        | (_, some err) =>
          ⟨[.Exec "INSERT INTO crudtest_struct (firstname, lastname) VALUES (?, ?)"
              [body.Firstname, body.Lastname]], .Fatalln "Insert failed" err, db1⟩
      | ((none, _), db1) =>
        ⟨[.Exec "INSERT INTO crudtest_struct (firstname, lastname) VALUES (?, ?)"
            [body.Firstname, body.Lastname]], c_return (c_Bind bindErr), db1⟩ := by
  unfold PostUser
  rw [if_pos ⟨hfn, hln⟩]
  rfl

theorem PostUser_calls {σ : Type} (dbmap : DbMap σ) (body : crudtest_struct)
    (bindErr : GoError) (db : σ) :
    (PostUser dbmap body bindErr db).calls = [] ∨
    ((PostUser dbmap body bindErr db).calls =
        [.Exec "INSERT INTO crudtest_struct (firstname, lastname) VALUES (?, ?)"
          [body.Firstname, body.Lastname]] ∧
      body.Firstname ≠ "" ∧ body.Lastname ≠ "") := by
  by_cases h : body.Firstname ≠ "" ∧ body.Lastname ≠ ""
  · right
    refine ⟨?_, h.1, h.2⟩
    rw [PostUser_of_valid dbmap body bindErr db h.1 h.2]
    split
    · split <;> rfl
    · rfl
  · left
    rw [PostUser_of_empty dbmap body bindErr db (by tauto)]

theorem UpdateUser_of_lookup_error {σ : Type} (dbmap : DbMap σ) (id : String)
    (json : crudtest_struct) (bindErr : GoError) (db : σ)
    (h : (dbmap.SelectOne "SELECT * FROM crudtest_struct WHERE id=?" id db).2 ≠ none) :
    UpdateUser dbmap id json bindErr db =
      ⟨[.SelectOne "SELECT * FROM crudtest_struct WHERE id=?" id],
        .JSON 404 (.H [("error", "content not found")]), db⟩ := by
  unfold UpdateUser
  dsimp only
  rcases hs : dbmap.SelectOne "SELECT * FROM crudtest_struct WHERE id=?" id db with ⟨r, _ | e⟩
  · rw [hs] at h
    exact absurd rfl h
  · rfl

theorem UpdateUser_of_empty {σ : Type} (dbmap : DbMap σ) (id : String)
    (json : crudtest_struct) (bindErr : GoError) (db : σ)
    (hlook : (dbmap.SelectOne "SELECT * FROM crudtest_struct WHERE id=?" id db).2 = none)
    (h : json.Firstname = "" ∨ json.Lastname = "") :
    UpdateUser dbmap id json bindErr db =
      ⟨[.SelectOne "SELECT * FROM crudtest_struct WHERE id=?" id],
        c_JSON (c_Bind bindErr) 422 (.H [("error", "fields are empty")]), db⟩ := by
  unfold UpdateUser
  dsimp only
  rcases hs : dbmap.SelectOne "SELECT * FROM crudtest_struct WHERE id=?" id db with ⟨r, _ | e⟩
  · dsimp only
    rw [if_neg]
    rintro ⟨h1, h2⟩
    rcases h with h | h
    · exact h1 h
    · exact h2 h
  · rw [hs] at hlook
    cases hlook

theorem UpdateUser_of_valid {σ : Type} (dbmap : DbMap σ) (id : String)
    (json : crudtest_struct) (bindErr : GoError) (db : σ)
    (hlook : (dbmap.SelectOne "SELECT * FROM crudtest_struct WHERE id=?" id db).2 = none)
    (hfn : json.Firstname ≠ "") (hln : json.Lastname ≠ "") :
    UpdateUser dbmap id json bindErr db =
      match dbmap.Update ⟨(ParseInt id).1, json.Firstname, json.Lastname⟩ db with
      | ((_, none), db1) =>
        ⟨[.SelectOne "SELECT * FROM crudtest_struct WHERE id=?" id,
            .Update ⟨(ParseInt id).1, json.Firstname, json.Lastname⟩],
          c_JSON (c_Bind bindErr) 200
            (.row ⟨(ParseInt id).1, json.Firstname, json.Lastname⟩), db1⟩
      | ((_, some err), db1) =>
        ⟨[.SelectOne "SELECT * FROM crudtest_struct WHERE id=?" id,
            .Update ⟨(ParseInt id).1, json.Firstname, json.Lastname⟩],
          .Fatalln "Update failed" err, db1⟩ := by
  unfold UpdateUser
  dsimp only
  rcases hs : dbmap.SelectOne "SELECT * FROM crudtest_struct WHERE id=?" id db with ⟨r, _ | e⟩
  · dsimp only
    rw [if_pos ⟨hfn, hln⟩]
    rfl
  · rw [hs] at hlook
    cases hlook

theorem DeleteUser_of_lookup_error {σ : Type} (dbmap : DbMap σ) (id : String) (db : σ)
    (h : (dbmap.SelectOne "SELECT id FROM crudtest_struct WHERE id=?" id db).2 ≠ none) :
    DeleteUser dbmap id db =
      ⟨[.SelectOne "SELECT id FROM crudtest_struct WHERE id=?" id],
        .JSON 404 (.H [("error", "content not found")]), db⟩ := by
  unfold DeleteUser
  dsimp only
  rcases hs : dbmap.SelectOne "SELECT id FROM crudtest_struct WHERE id=?" id db with ⟨r, _ | e⟩
  · rw [hs] at h
    exact absurd rfl h
  · rfl

theorem DeleteUser_of_found {σ : Type} (dbmap : DbMap σ) (id : String) (db : σ)
    (hlook : (dbmap.SelectOne "SELECT id FROM crudtest_struct WHERE id=?" id db).2 = none) :
    DeleteUser dbmap id db =
      match dbmap.Delete (dbmap.SelectOne "SELECT id FROM crudtest_struct WHERE id=?" id db).1
          db with
      | ((_, none), db1) =>
        ⟨[.SelectOne "SELECT id FROM crudtest_struct WHERE id=?" id,
            .Delete (dbmap.SelectOne "SELECT id FROM crudtest_struct WHERE id=?" id db).1],
          .JSON 200 (.H [("id #" ++ id, " deleted")]), db1⟩
      | ((_, some err), db1) =>
        ⟨[.SelectOne "SELECT id FROM crudtest_struct WHERE id=?" id,
            .Delete (dbmap.SelectOne "SELECT id FROM crudtest_struct WHERE id=?" id db).1],
          .Fatalln "Delete failed" err, db1⟩ := by
  unfold DeleteUser
  dsimp only
  rcases hs : dbmap.SelectOne "SELECT id FROM crudtest_struct WHERE id=?" id db with ⟨r, _ | e⟩
  · rfl
  · rw [hs] at hlook
    cases hlook

/-- In `UpdateUser`, a failed `dbmap.Update` after a successful lookup and valid
names ends in `checkErr(err, "Update failed")`, whatever `c.Bind` returned. -/
theorem UpdateUser_update_error_fatal {σ : Type} (dbmap : DbMap σ) (id : String)
    (json : crudtest_struct) (bindErr : GoError) (db : σ) (err : String)
    (hlook : (dbmap.SelectOne "SELECT * FROM crudtest_struct WHERE id=?" id db).2 = none)
    (hfn : json.Firstname ≠ "") (hln : json.Lastname ≠ "")
    (hupd : (dbmap.Update ⟨(ParseInt id).1, json.Firstname, json.Lastname⟩ db).1.2 = some err) :
    (UpdateUser dbmap id json bindErr db).outcome = .Fatalln "Update failed" err := by
  rw [UpdateUser_of_valid dbmap id json bindErr db hlook hfn hln]
  split
  · rename_i heq
    rw [heq] at hupd
    cases hupd
  · rename_i heq
    rw [heq] at hupd
    cases hupd
    rfl

/-- In `DeleteUser`, a failed `dbmap.Delete` after a successful lookup ends in
`checkErr(err, "Delete failed")`: no response is written. -/
theorem DeleteUser_delete_error_fatal {σ : Type} (dbmap : DbMap σ) (id : String) (db : σ)
    (err : String)
    (hlook : (dbmap.SelectOne "SELECT id FROM crudtest_struct WHERE id=?" id db).2 = none)
    (hdel : (dbmap.Delete (dbmap.SelectOne "SELECT id FROM crudtest_struct WHERE id=?" id db).1
      db).1.2 = some err) :
    (DeleteUser dbmap id db).outcome = .Fatalln "Delete failed" err := by
  rw [DeleteUser_of_found dbmap id db hlook]
  split
  · rename_i heq
    rw [heq] at hdel
    cases hdel
  · rename_i heq
    rw [heq] at hdel
    cases hdel
    rfl

/-- In `UpdateUser`, whenever the update returns no error the record of the
reply and the row handed to `dbmap.Update` both carry the value
`strconv.ParseInt` returned for the route parameter; the record filled by the
lookup is not consulted. -/
theorem UpdateUser_ok_uses_parsed_id {σ : Type} (dbmap : DbMap σ) (id : String)
    (json : crudtest_struct) (bindErr : GoError) (db : σ)
    (hlook : (dbmap.SelectOne "SELECT * FROM crudtest_struct WHERE id=?" id db).2 = none)
    (hfn : json.Firstname ≠ "") (hln : json.Lastname ≠ "")
    (hupd : (dbmap.Update ⟨(ParseInt id).1, json.Firstname, json.Lastname⟩ db).1.2 = none) :
    (UpdateUser dbmap id json bindErr db).outcome =
        c_JSON (c_Bind bindErr) 200 (.row ⟨(ParseInt id).1, json.Firstname, json.Lastname⟩) ∧
      (UpdateUser dbmap id json bindErr db).calls =
        [.SelectOne "SELECT * FROM crudtest_struct WHERE id=?" id,
          .Update ⟨(ParseInt id).1, json.Firstname, json.Lastname⟩] := by
  rw [UpdateUser_of_valid dbmap id json bindErr db hlook hfn hln]
  split
  · exact ⟨rfl, rfl⟩
  · rename_i heq
    rw [heq] at hupd
    cases hupd

theorem GetUsers_calls {σ : Type} (dbmap : DbMap σ) (db : σ) :
    (GetUsers dbmap db).calls = [.Select "SELECT * FROM crudtest_struct"] := by
  unfold GetUsers
  dsimp only
  rcases dbmap.Select "SELECT * FROM crudtest_struct" db with ⟨rs, _ | e⟩ <;> rfl

theorem GetUser_calls {σ : Type} (dbmap : DbMap σ) (w : String) (db : σ) :
    (GetUser dbmap w db).calls = [.Select ("SELECT * FROM crudtest_struct WHERE " ++ w)] := by
  unfold GetUser
  dsimp only
  rcases dbmap.Select ("SELECT * FROM crudtest_struct WHERE " ++ w) db with ⟨rs, _ | e⟩ <;> rfl

/-! ## Create -/

/-- C1 (as stated, refuted), at two inputs with non-empty names.  First: the
insert returns a result and `LastInsertId` returns an error, so `PostUser` ends
in `checkErr(err, "Insert failed")` and writes no 201.  Second: the body
carries the names and the id `"abc"`; both names decode, `c.Bind` returns an
error and writes 400, the insert is issued all the same and the record goes
out under the status 400, not 201. -/
theorem PostUser_not_created_on_every_outcome :
    (⟨0, "Ken", "Thompson"⟩ : crudtest_struct).Firstname ≠ "" ∧
    (⟨0, "Ken", "Thompson"⟩ : crudtest_struct).Lastname ≠ "" ∧
    (PostUser failingWritesDb ⟨0, "Ken", "Thompson"⟩ none ()).outcome =
      .Fatalln "Insert failed" "no insert id available" ∧
    (¬ ∃ body, (PostUser failingWritesDb ⟨0, "Ken", "Thompson"⟩ none ()).outcome =
      .JSON 201 body) ∧
    (PostUser tableDb ⟨0, "Ken", "Thompson"⟩
      (some "json: cannot unmarshal string into Go struct field crudtest_struct.id of type int64")
      sampleTable).calls =
      [.Exec "INSERT INTO crudtest_struct (firstname, lastname) VALUES (?, ?)" ["Ken", "Thompson"]] ∧
    (PostUser tableDb ⟨0, "Ken", "Thompson"⟩
      (some "json: cannot unmarshal string into Go struct field crudtest_struct.id of type int64")
      sampleTable).outcome = .JSON 400 (.row ⟨11, "Ken", "Thompson"⟩) ∧
    (¬ ∃ body, (PostUser tableDb ⟨0, "Ken", "Thompson"⟩
      (some "json: cannot unmarshal string into Go struct field crudtest_struct.id of type int64")
      sampleTable).outcome = .JSON 201 body) := by
  have h1 : (PostUser failingWritesDb ⟨0, "Ken", "Thompson"⟩ none ()).outcome =
      .Fatalln "Insert failed" "no insert id available" := by decide
  have h2 : (PostUser tableDb ⟨0, "Ken", "Thompson"⟩
      (some "json: cannot unmarshal string into Go struct field crudtest_struct.id of type int64")
      sampleTable).outcome = .JSON 400 (.row ⟨11, "Ken", "Thompson"⟩) := by decide
  refine ⟨by decide, by decide, h1, ?_, by decide, h2, ?_⟩
  · rintro ⟨body, h⟩
    rw [h1] at h
    cases h
  · rintro ⟨body, h⟩
    rw [h2] at h
    cases h

/-- C1 (amended): for a body that decodes without error (`c.Bind` returns nil)
and has non-empty firstname and lastname, `PostUser` issues exactly the insert
with arguments (firstname, lastname) and leaves the store as the insert left
it; if the insert returns a result whose `LastInsertId` returns no error, the
reply is 201 with the record made of the id the store assigned and the names
of the body; if `LastInsertId` returns an error the handler ends in `checkErr`
with that error; and the run is the same for every integer id supplied in the
body. -/
theorem PostUser_created {σ : Type} (dbmap : DbMap σ) (body : crudtest_struct) (db : σ)
    (hfn : body.Firstname ≠ "") (hln : body.Lastname ≠ "") :
    (PostUser dbmap body none db).calls =
        [.Exec "INSERT INTO crudtest_struct (firstname, lastname) VALUES (?, ?)"
          [body.Firstname, body.Lastname]] ∧
    (PostUser dbmap body none db).db =
        (dbmap.Exec "INSERT INTO crudtest_struct (firstname, lastname) VALUES (?, ?)"
          [body.Firstname, body.Lastname] db).2 ∧
    (∀ insert newId,
        (dbmap.Exec "INSERT INTO crudtest_struct (firstname, lastname) VALUES (?, ?)"
          [body.Firstname, body.Lastname] db).1.1 = some insert →
        insert.LastInsertId = (newId, none) →
        (PostUser dbmap body none db).outcome =
          .JSON 201 (.row ⟨newId, body.Firstname, body.Lastname⟩)) ∧
    (∀ insert newId err,
        (dbmap.Exec "INSERT INTO crudtest_struct (firstname, lastname) VALUES (?, ?)"
          [body.Firstname, body.Lastname] db).1.1 = some insert →
        insert.LastInsertId = (newId, some err) →
        (PostUser dbmap body none db).outcome = .Fatalln "Insert failed" err) ∧
    (∀ suppliedId : Int,
        PostUser dbmap ⟨suppliedId, body.Firstname, body.Lastname⟩ none db =
          PostUser dbmap body none db) := by
  refine ⟨?_, ?_, ?_, ?_, ?_⟩
  · rcases PostUser_calls dbmap body none db with h | h
    · rw [PostUser_of_valid dbmap body none db hfn hln] at h
      split at h
      · split at h <;> cases h
      · cases h
    · exact h.1
  · rw [PostUser_of_valid dbmap body none db hfn hln]
    split
    · rename_i heq
      rw [heq]
      split <;> rfl
    · rename_i heq
      rw [heq]
  · intro insert newId hres hid
    rw [PostUser_of_valid dbmap body none db hfn hln]
    split
    · rename_i heq
      rw [heq] at hres
      cases hres
      rw [hid]
      rfl
    · rename_i heq
      rw [heq] at hres
      cases hres
  · intro insert newId err hres hid
    rw [PostUser_of_valid dbmap body none db hfn hln]
    split
    · rename_i heq
      rw [heq] at hres
      cases hres
      rw [hid]
    · rename_i heq
      rw [heq] at hres
      cases hres
  · intro suppliedId
    rw [PostUser_of_valid dbmap body none db hfn hln,
      PostUser_of_valid dbmap ⟨suppliedId, body.Firstname, body.Lastname⟩ none db hfn hln]

/-- C1 witness: on the sample table the body (id 77, "Dennis", "Ritchie") is
stored under the next key, 11, and the reply carries 11, not 77. -/
theorem PostUser_created_witness :
    (⟨77, "Dennis", "Ritchie"⟩ : crudtest_struct).Firstname ≠ "" ∧
    (⟨77, "Dennis", "Ritchie"⟩ : crudtest_struct).Lastname ≠ "" ∧
    (PostUser tableDb ⟨77, "Dennis", "Ritchie"⟩ none sampleTable).outcome =
      .JSON 201 (.row ⟨11, "Dennis", "Ritchie"⟩) ∧
    (PostUser tableDb ⟨77, "Dennis", "Ritchie"⟩ none sampleTable).calls =
      [.Exec "INSERT INTO crudtest_struct (firstname, lastname) VALUES (?, ?)"
        ["Dennis", "Ritchie"]] :=
  ⟨by decide, by decide,
    (PostUser_created tableDb ⟨77, "Dennis", "Ritchie"⟩ sampleTable (by decide)
      (by decide)).2.2.1 ⟨(11, none)⟩ 11 rfl rfl,
    (PostUser_created tableDb ⟨77, "Dennis", "Ritchie"⟩ sampleTable (by decide)
      (by decide)).1⟩

/-- C2 (as stated, refuted): the body `"lastname": 5` has no firstname and a
lastname that does not decode; `c.Bind` returns an error and writes 400, the
struct keeps two empty names, and the payload `"error": "fields are empty"`
goes out under the status 400, not 422. -/
theorem PostUser_empty_fields_not_422 :
    ((⟨0, "", ""⟩ : crudtest_struct).Firstname = "" ∨
      (⟨0, "", ""⟩ : crudtest_struct).Lastname = "") ∧
    (PostUser tableDb ⟨0, "", ""⟩
      (some "json: cannot unmarshal number into Go struct field crudtest_struct.lastname of type string")
      sampleTable).outcome = .JSON 400 (.H [("error", "fields are empty")]) ∧
    (PostUser tableDb ⟨0, "", ""⟩
      (some "json: cannot unmarshal number into Go struct field crudtest_struct.lastname of type string")
      sampleTable).outcome ≠ .JSON 422 (.H [("error", "fields are empty")]) := by
  refine ⟨by decide, by decide, by decide⟩

/-- C2 (amended): a body whose firstname or lastname is empty gets the
one-entry payload `"error": "fields are empty"`, under the status 422 when
the body decoded without error and under the status 400 that `c.Bind` wrote
when it did not; in both cases no store call is issued, the store state is the
one before the request, and `GetUsers` answers on it as it did before. -/
theorem PostUser_empty_fields {σ : Type} (dbmap : DbMap σ) (body : crudtest_struct)
    (bindErr : GoError) (db : σ) (h : body.Firstname = "" ∨ body.Lastname = "") :
    (bindErr = none →
      (PostUser dbmap body bindErr db).outcome =
        .JSON 422 (.H [("error", "fields are empty")])) ∧
    (bindErr ≠ none →
      (PostUser dbmap body bindErr db).outcome =
        .JSON 400 (.H [("error", "fields are empty")])) ∧
    (PostUser dbmap body bindErr db).calls = [] ∧
    (PostUser dbmap body bindErr db).db = db ∧
    GetUsers dbmap (PostUser dbmap body bindErr db).db = GetUsers dbmap db := by
  rw [PostUser_of_empty dbmap body bindErr db h]
  refine ⟨?_, ?_, rfl, rfl, rfl⟩
  · intro hb
    subst hb
    rfl
  · intro hb
    cases bindErr with
    | none => exact absurd rfl hb
    | some e => rfl

/-- C2 witness: the third example command in the comment of `PostUser` sends
`"firstname": "Ken", "Thompson": "Burge"`, which decodes without error to the
names ("Ken", ""); on the sample table it is answered 422 and nothing is
inserted. -/
theorem PostUser_empty_fields_witness :
    ((⟨0, "Ken", ""⟩ : crudtest_struct).Firstname = "" ∨
      (⟨0, "Ken", ""⟩ : crudtest_struct).Lastname = "") ∧
    (PostUser tableDb ⟨0, "Ken", ""⟩ none sampleTable).outcome =
      .JSON 422 (.H [("error", "fields are empty")]) ∧
    (PostUser tableDb ⟨0, "Ken", ""⟩ none sampleTable).calls = [] ∧
    (PostUser tableDb ⟨0, "Ken", ""⟩ none sampleTable).db = sampleTable ∧
    GetUsers tableDb (PostUser tableDb ⟨0, "Ken", ""⟩ none sampleTable).db =
      GetUsers tableDb sampleTable :=
  ⟨by decide,
    (PostUser_empty_fields tableDb ⟨0, "Ken", ""⟩ none sampleTable (by decide)).1 rfl,
    (PostUser_empty_fields tableDb ⟨0, "Ken", ""⟩ none sampleTable (by decide)).2.2⟩

/-! ## Update -/

/-- C3 (the code at the failing input): on the table with rows 8 and 10 the
request `PUT /api/010` with body ("Dennis", "Ritchie") looks up row 10, then
issues the update against key 8 and answers 200 with id 8: `strconv.ParseInt`
with base 0 reads the leading `0` as an octal prefix.  Row 8 is overwritten and
row 10 keeps its names. -/
theorem UpdateUser_octal_route_id :
    tableDb.SelectOne "SELECT * FROM crudtest_struct WHERE id=?" "010" sampleTable =
      (⟨10, "Ken", "Thompson"⟩, none) ∧
    ParseInt "010" = (8, none) ∧
    (UpdateUser tableDb "010" ⟨0, "Dennis", "Ritchie"⟩ none sampleTable).calls =
      [.SelectOne "SELECT * FROM crudtest_struct WHERE id=?" "010",
        .Update ⟨8, "Dennis", "Ritchie"⟩] ∧
    (UpdateUser tableDb "010" ⟨0, "Dennis", "Ritchie"⟩ none sampleTable).outcome =
      .JSON 200 (.row ⟨8, "Dennis", "Ritchie"⟩) ∧
    (UpdateUser tableDb "010" ⟨0, "Dennis", "Ritchie"⟩ none sampleTable).db =
      { rows := [⟨8, "Dennis", "Ritchie"⟩, ⟨10, "Ken", "Thompson"⟩], nextId := 11 } := by
  refine ⟨by decide, by decide, by decide, by decide, by decide⟩

/-- C6 (as stated, refuted): `PUT /api/10` on the sample table with an empty
request body; the lookup finds row 10, `c.Bind` returns an error and writes
400, both names are empty, and the payload `"error": "fields are empty"` goes
out under the status 400, not 422. -/
theorem UpdateUser_empty_fields_not_422 :
    (tableDb.SelectOne "SELECT * FROM crudtest_struct WHERE id=?" "10" sampleTable).2 = none ∧
    ((⟨0, "", ""⟩ : crudtest_struct).Firstname = "" ∨
      (⟨0, "", ""⟩ : crudtest_struct).Lastname = "") ∧
    (UpdateUser tableDb "10" ⟨0, "", ""⟩ (some "EOF") sampleTable).outcome =
      .JSON 400 (.H [("error", "fields are empty")]) ∧
    (UpdateUser tableDb "10" ⟨0, "", ""⟩ (some "EOF") sampleTable).outcome ≠
      .JSON 422 (.H [("error", "fields are empty")]) := by
  refine ⟨by decide, by decide, by decide, by decide⟩

/-- C6 (amended): for every store and store state, (1) when the lookup of
`UpdateUser` succeeds and the body has an empty firstname or lastname, the
reply is the one-entry payload `"error": "fields are empty"`, under the
status 422 when the body decoded without error and under the status 400 that
`c.Bind` wrote when it did not, the lookup is the only store call and the
store state is unchanged; (2) every insert issued by `PostUser` carries the
two names of the body, both non-empty; (3) every update issued by `UpdateUser`
carries the two names of the body, both non-empty.  Parts (2) and (3) hold for
every request, whatever the lookup and `c.Bind` return. -/
theorem UpdateUser_empty_fields {σ : Type} (dbmap : DbMap σ) (db : σ) :
    (∀ (id : String) (json : crudtest_struct) (bindErr : GoError),
      (dbmap.SelectOne "SELECT * FROM crudtest_struct WHERE id=?" id db).2 = none →
      (json.Firstname = "" ∨ json.Lastname = "") →
        (bindErr = none →
          (UpdateUser dbmap id json bindErr db).outcome =
            .JSON 422 (.H [("error", "fields are empty")])) ∧
        (bindErr ≠ none →
          (UpdateUser dbmap id json bindErr db).outcome =
            .JSON 400 (.H [("error", "fields are empty")])) ∧
        (UpdateUser dbmap id json bindErr db).calls =
          [.SelectOne "SELECT * FROM crudtest_struct WHERE id=?" id] ∧
        (UpdateUser dbmap id json bindErr db).db = db) ∧
    (∀ (body : crudtest_struct) (bindErr : GoError) (query : String) (args : List String),
      StoreCall.Exec query args ∈ (PostUser dbmap body bindErr db).calls →
        args = [body.Firstname, body.Lastname] ∧ body.Firstname ≠ "" ∧ body.Lastname ≠ "") ∧
    (∀ (id : String) (json : crudtest_struct) (bindErr : GoError) (row : crudtest_struct),
      StoreCall.Update row ∈ (UpdateUser dbmap id json bindErr db).calls →
        row.Firstname = json.Firstname ∧ row.Lastname = json.Lastname ∧
          row.Firstname ≠ "" ∧ row.Lastname ≠ "") := by
  refine ⟨?_, ?_, ?_⟩
  · intro id json bindErr hlook h
    rw [UpdateUser_of_empty dbmap id json bindErr db hlook h]
    refine ⟨?_, ?_, rfl, rfl⟩
    · intro hb
      subst hb
      rfl
    · intro hb
      cases bindErr with
      | none => exact absurd rfl hb
      | some e => rfl
  · intro body bindErr query args hmem
    rcases PostUser_calls dbmap body bindErr db with hc | ⟨hc, hfn, hln⟩
    · rw [hc] at hmem
      cases hmem
    · rw [hc] at hmem
      simp only [List.mem_singleton, StoreCall.Exec.injEq] at hmem
      exact ⟨hmem.2, hfn, hln⟩
  · intro id1 json1 bindErr row hmem
    by_cases hl : (dbmap.SelectOne "SELECT * FROM crudtest_struct WHERE id=?" id1 db).2 = none
    · by_cases hv : json1.Firstname ≠ "" ∧ json1.Lastname ≠ ""
      · rw [UpdateUser_of_valid dbmap id1 json1 bindErr db hl hv.1 hv.2] at hmem
        have hrow : row = ⟨(ParseInt id1).1, json1.Firstname, json1.Lastname⟩ := by
          split at hmem <;> simpa using hmem
        subst hrow
        exact ⟨rfl, rfl, hv.1, hv.2⟩
      · rw [UpdateUser_of_empty dbmap id1 json1 bindErr db hl (by tauto)] at hmem
        simp at hmem
    · rw [UpdateUser_of_lookup_error dbmap id1 json1 bindErr db hl] at hmem
      simp at hmem

/-- C6 witness, on the sample table: `PUT /api/10` with the decoded body
("", "Ritchie") is answered 422 after the lookup alone; the insert of
`POST /api` with ("Dennis", "Ritchie") and the update of `PUT /api/10` with
("Dennis", "Ritchie") are issued and carry two non-empty names. -/
theorem UpdateUser_empty_fields_witness :
    (tableDb.SelectOne "SELECT * FROM crudtest_struct WHERE id=?" "10" sampleTable).2 = none ∧
    ((⟨0, "", "Ritchie"⟩ : crudtest_struct).Firstname = "" ∨
      (⟨0, "", "Ritchie"⟩ : crudtest_struct).Lastname = "") ∧
    (UpdateUser tableDb "10" ⟨0, "", "Ritchie"⟩ none sampleTable).outcome =
      .JSON 422 (.H [("error", "fields are empty")]) ∧
    (UpdateUser tableDb "10" ⟨0, "", "Ritchie"⟩ none sampleTable).calls =
      [.SelectOne "SELECT * FROM crudtest_struct WHERE id=?" "10"] ∧
    (UpdateUser tableDb "10" ⟨0, "", "Ritchie"⟩ none sampleTable).db = sampleTable ∧
    StoreCall.Exec "INSERT INTO crudtest_struct (firstname, lastname) VALUES (?, ?)" ["Dennis", "Ritchie"] ∈
      (PostUser tableDb ⟨0, "Dennis", "Ritchie"⟩ none sampleTable).calls ∧
    ((⟨0, "Dennis", "Ritchie"⟩ : crudtest_struct).Firstname ≠ "" ∧
      (⟨0, "Dennis", "Ritchie"⟩ : crudtest_struct).Lastname ≠ "") ∧
    StoreCall.Update ⟨10, "Dennis", "Ritchie"⟩ ∈
      (UpdateUser tableDb "10" ⟨0, "Dennis", "Ritchie"⟩ none sampleTable).calls ∧
    ((⟨10, "Dennis", "Ritchie"⟩ : crudtest_struct).Firstname ≠ "" ∧
      (⟨10, "Dennis", "Ritchie"⟩ : crudtest_struct).Lastname ≠ "") :=
  ⟨by decide, by decide,
    ((UpdateUser_empty_fields tableDb sampleTable).1 "10" ⟨0, "", "Ritchie"⟩ none
      (by decide) (by decide)).1 rfl,
    ((UpdateUser_empty_fields tableDb sampleTable).1 "10" ⟨0, "", "Ritchie"⟩ none
      (by decide) (by decide)).2.2.1,
    ((UpdateUser_empty_fields tableDb sampleTable).1 "10" ⟨0, "", "Ritchie"⟩ none
      (by decide) (by decide)).2.2.2,
    by decide,
    ((UpdateUser_empty_fields tableDb sampleTable).2.1 ⟨0, "Dennis", "Ritchie"⟩ none
      "INSERT INTO crudtest_struct (firstname, lastname) VALUES (?, ?)" ["Dennis", "Ritchie"] (by decide)).2,
    by decide,
    ((UpdateUser_empty_fields tableDb sampleTable).2.2 "10" ⟨0, "Dennis", "Ritchie"⟩ none
      ⟨10, "Dennis", "Ritchie"⟩ (by decide)).2.2⟩

/-! ## Delete -/

/-- C4 (as stated, refuted): `DELETE /api/10` on the sample table finds row 10
and deletes it, and the value of the one entry of the payload is `" deleted"`
with a leading blank, not `"deleted"`. -/
theorem DeleteUser_value_is_not_deleted :
    (tableDb.SelectOne "SELECT id FROM crudtest_struct WHERE id=?" "10" sampleTable).2 = none ∧
    (tableDb.Delete
      (tableDb.SelectOne "SELECT id FROM crudtest_struct WHERE id=?" "10" sampleTable).1
      sampleTable).1.2 = none ∧
    (DeleteUser tableDb "10" sampleTable).outcome = .JSON 200 (.H [("id #10", " deleted")]) ∧
    (DeleteUser tableDb "10" sampleTable).outcome ≠ .JSON 200 (.H [("id #10", "deleted")]) := by
  refine ⟨by decide, by decide, by decide, by decide⟩

/-- C4 (amended): when the lookup and the delete of `DeleteUser` both return no
error, the response is 200 with a payload of exactly one entry, whose key is
`"id #"` followed by the route parameter and whose value is the string
`" deleted"` (a blank, then `deleted`); the delete is the second store call
and is issued against the record the lookup filled. -/
theorem DeleteUser_deleted {σ : Type} (dbmap : DbMap σ) (id : String) (db : σ)
    (hlook : (dbmap.SelectOne "SELECT id FROM crudtest_struct WHERE id=?" id db).2 = none)
    (hdel : (dbmap.Delete
      (dbmap.SelectOne "SELECT id FROM crudtest_struct WHERE id=?" id db).1 db).1.2 = none) :
    (DeleteUser dbmap id db).outcome = .JSON 200 (.H [("id #" ++ id, " deleted")]) ∧
    (DeleteUser dbmap id db).calls =
      [.SelectOne "SELECT id FROM crudtest_struct WHERE id=?" id,
        .Delete (dbmap.SelectOne "SELECT id FROM crudtest_struct WHERE id=?" id db).1] := by
  rw [DeleteUser_of_found dbmap id db hlook]
  split
  · exact ⟨rfl, rfl⟩
  · rename_i heq
    rw [heq] at hdel
    cases hdel

/-- C4 witness: `DELETE /api/8` on the sample table. -/
theorem DeleteUser_deleted_witness :
    (tableDb.SelectOne "SELECT id FROM crudtest_struct WHERE id=?" "8" sampleTable).2 = none ∧
    (tableDb.Delete
      (tableDb.SelectOne "SELECT id FROM crudtest_struct WHERE id=?" "8" sampleTable).1
      sampleTable).1.2 = none ∧
    (DeleteUser tableDb "8" sampleTable).outcome = .JSON 200 (.H [("id #" ++ "8", " deleted")]) ∧
    (DeleteUser tableDb "8" sampleTable).calls =
      [.SelectOne "SELECT id FROM crudtest_struct WHERE id=?" "8",
        .Delete (tableDb.SelectOne "SELECT id FROM crudtest_struct WHERE id=?" "8"
          sampleTable).1] :=
  ⟨by decide, by decide, DeleteUser_deleted tableDb "8" sampleTable (by decide) (by decide)⟩

/-! ## Not found -/

/-- C5: in `UpdateUser` and in `DeleteUser`, when the lookup returns an error
the response is 404 with the one-entry payload `"error": "content not found"`,
the lookup is the only store call (no update, no delete) and the store state is
unchanged; for `UpdateUser` this holds for every body, empty names included,
and whatever `c.Bind` would return (it is called only after the lookup). -/
theorem lookup_error_not_found {σ : Type} (dbmap : DbMap σ) (id : String)
    (json : crudtest_struct) (bindErr : GoError) (db : σ) :
    ((dbmap.SelectOne "SELECT * FROM crudtest_struct WHERE id=?" id db).2 ≠ none →
      (UpdateUser dbmap id json bindErr db).outcome =
          .JSON 404 (.H [("error", "content not found")]) ∧
        (UpdateUser dbmap id json bindErr db).calls =
          [.SelectOne "SELECT * FROM crudtest_struct WHERE id=?" id] ∧
        (UpdateUser dbmap id json bindErr db).db = db) ∧
    ((dbmap.SelectOne "SELECT id FROM crudtest_struct WHERE id=?" id db).2 ≠ none →
      (DeleteUser dbmap id db).outcome =
          .JSON 404 (.H [("error", "content not found")]) ∧
        (DeleteUser dbmap id db).calls =
          [.SelectOne "SELECT id FROM crudtest_struct WHERE id=?" id] ∧
        (DeleteUser dbmap id db).db = db) := by
  constructor
  · intro h
    rw [UpdateUser_of_lookup_error dbmap id json bindErr db h]
    exact ⟨rfl, rfl, rfl⟩
  · intro h
    rw [DeleteUser_of_lookup_error dbmap id db h]
    exact ⟨rfl, rfl, rfl⟩

/-- C5 witness: the sample table has no row 3; `PUT /api/3` with an empty body
and `DELETE /api/3` both answer 404 and leave the table as it was. -/
theorem lookup_error_not_found_witness :
    (tableDb.SelectOne "SELECT * FROM crudtest_struct WHERE id=?" "3" sampleTable).2 ≠ none ∧
    (tableDb.SelectOne "SELECT id FROM crudtest_struct WHERE id=?" "3" sampleTable).2 ≠ none ∧
    ((UpdateUser tableDb "3" ⟨0, "", ""⟩ none sampleTable).outcome =
        .JSON 404 (.H [("error", "content not found")]) ∧
      (UpdateUser tableDb "3" ⟨0, "", ""⟩ none sampleTable).calls =
        [.SelectOne "SELECT * FROM crudtest_struct WHERE id=?" "3"] ∧
      (UpdateUser tableDb "3" ⟨0, "", ""⟩ none sampleTable).db = sampleTable) ∧
    ((DeleteUser tableDb "3" sampleTable).outcome =
        .JSON 404 (.H [("error", "content not found")]) ∧
      (DeleteUser tableDb "3" sampleTable).calls =
        [.SelectOne "SELECT id FROM crudtest_struct WHERE id=?" "3"] ∧
      (DeleteUser tableDb "3" sampleTable).db = sampleTable) :=
  ⟨by decide, by decide,
    (lookup_error_not_found tableDb "3" ⟨0, "", ""⟩ none sampleTable).1 (by decide),
    (lookup_error_not_found tableDb "3" ⟨0, "", ""⟩ none sampleTable).2 (by decide)⟩

/-! ## Reads -/

/-- C7: for every clause `w`, `GetUser` issues exactly one store call, the
select of `"SELECT * FROM crudtest_struct WHERE "` followed by `w` unchanged;
if it returns rows without error the response is 200 with those rows in that
order, and if it returns an error the response is 404 with the one-entry
payload `"error": "content not found"`. -/
theorem GetUser_verbatim_clause {σ : Type} (dbmap : DbMap σ) (w : String) (db : σ) :
    (GetUser dbmap w db).calls = [.Select ("SELECT * FROM crudtest_struct WHERE " ++ w)] ∧
    (GetUser dbmap w db).db = db ∧
    ((dbmap.Select ("SELECT * FROM crudtest_struct WHERE " ++ w) db).2 = none →
      (GetUser dbmap w db).outcome =
        .JSON 200 (.rows (dbmap.Select ("SELECT * FROM crudtest_struct WHERE " ++ w) db).1)) ∧
    ((dbmap.Select ("SELECT * FROM crudtest_struct WHERE " ++ w) db).2 ≠ none →
      (GetUser dbmap w db).outcome = .JSON 404 (.H [("error", "content not found")])) := by
  unfold GetUser
  dsimp only
  rcases hs : dbmap.Select ("SELECT * FROM crudtest_struct WHERE " ++ w) db with ⟨rs, _ | e⟩
  · exact ⟨rfl, rfl, fun _ => rfl, fun h => absurd rfl h⟩
  · refine ⟨rfl, rfl, fun h => ?_, fun _ => rfl⟩
    cases h

/-- C7 witness: the clause `id=1` against the in-memory table (200 with its
rows) and against the store that is down (404). -/
theorem GetUser_verbatim_clause_witness :
    (GetUser tableDb "id=1" sampleTable).calls =
      [.Select "SELECT * FROM crudtest_struct WHERE id=1"] ∧
    (GetUser tableDb "id=1" sampleTable).outcome =
      .JSON 200 (.rows [⟨8, "Rob", "Pike"⟩, ⟨10, "Ken", "Thompson"⟩]) ∧
    (GetUser downDb "id=1" ()).outcome = .JSON 404 (.H [("error", "content not found")]) :=
  ⟨(GetUser_verbatim_clause tableDb "id=1" sampleTable).1,
    (GetUser_verbatim_clause tableDb "id=1" sampleTable).2.2.1 (by decide),
    (GetUser_verbatim_clause downDb "id=1" ()).2.2.2 (by decide)⟩

/-- The example request in the comment of `GetUser`, `GET /crudtest/api/1`,
has the clause `1`: the statement issued is `... WHERE 1`, which names no id. -/
theorem GetUser_example_request :
    (GetUser tableDb "1" sampleTable).calls =
      [.Select "SELECT * FROM crudtest_struct WHERE 1"] :=
  GetUser_calls tableDb "1" sampleTable

/-- C8: `GetUsers` issues the select of `"SELECT * FROM crudtest_struct"`; when
it returns no error the response is 200 with exactly the rows returned, in the
same order (the empty list included), and the response is 404 with the
one-entry payload `"error": "not able to find in the table"` if and only if the
select returns an error. -/
theorem GetUsers_list {σ : Type} (dbmap : DbMap σ) (db : σ) :
    (GetUsers dbmap db).calls = [.Select "SELECT * FROM crudtest_struct"] ∧
    (GetUsers dbmap db).db = db ∧
    ((dbmap.Select "SELECT * FROM crudtest_struct" db).2 = none →
      (GetUsers dbmap db).outcome =
        .JSON 200 (.rows (dbmap.Select "SELECT * FROM crudtest_struct" db).1)) ∧
    ((GetUsers dbmap db).outcome = .JSON 404 (.H [("error", "not able to find in the table")]) ↔
      (dbmap.Select "SELECT * FROM crudtest_struct" db).2 ≠ none) := by
  unfold GetUsers
  dsimp only
  rcases hs : dbmap.Select "SELECT * FROM crudtest_struct" db with ⟨rs, _ | e⟩
  · refine ⟨rfl, rfl, fun _ => rfl, ?_⟩
    constructor
    · intro h
      cases h
    · intro h
      exact absurd rfl h
  · refine ⟨rfl, rfl, fun h => ?_, ?_⟩
    · cases h
    · constructor
      · intro _ h
        cases h
      · intro _
        rfl

/-- C8 witness: the list of the sample table, of the empty table, and of the
store that is down. -/
theorem GetUsers_list_witness :
    (GetUsers tableDb sampleTable).outcome =
      .JSON 200 (.rows [⟨8, "Rob", "Pike"⟩, ⟨10, "Ken", "Thompson"⟩]) ∧
    (GetUsers tableDb ⟨[], 1⟩).outcome = .JSON 200 (.rows []) ∧
    (GetUsers downDb ()).outcome = .JSON 404 (.H [("error", "not able to find in the table")]) :=
  ⟨(GetUsers_list tableDb sampleTable).2.2.1 (by decide),
    (GetUsers_list tableDb ⟨[], 1⟩).2.2.1 (by decide),
    (GetUsers_list downDb ()).2.2.2.2 (by decide)⟩

/-! ## Failed writes -/

/-- C9 (the code at the failing input): the names are valid and `dbmap.Exec`
fails, returning a nil result and an error; `PostUser` issues the insert and
then returns without writing a response and without reaching `checkErr`. -/
theorem PostUser_insert_error_is_silent :
    (downDb.Exec "INSERT INTO crudtest_struct (firstname, lastname) VALUES (?, ?)"
      ["Ken", "Thompson"] ()).1 = (none, some "driver: bad connection") ∧
    (PostUser downDb ⟨0, "Ken", "Thompson"⟩ none ()).calls =
      [.Exec "INSERT INTO crudtest_struct (firstname, lastname) VALUES (?, ?)"
        ["Ken", "Thompson"]] ∧
    (PostUser downDb ⟨0, "Ken", "Thompson"⟩ none ()).outcome = .silent ∧
    (∀ msg err, (PostUser downDb ⟨0, "Ken", "Thompson"⟩ none ()).outcome ≠ .Fatalln msg err) := by
  refine ⟨by decide, by decide, by decide, ?_⟩
  intro msg err h
  have h2 : (PostUser downDb ⟨0, "Ken", "Thompson"⟩ none ()).outcome = .silent := by decide
  rw [h2] at h
  cases h

/-- The sibling paths of the insert: with the store whose writes fail,
`UpdateUser` and `DeleteUser` end in `checkErr` with the error of the write. -/
theorem failed_update_and_delete_are_fatal :
    (UpdateUser failingWritesDb "1" ⟨0, "Ken", "Thompson"⟩ none ()).outcome =
      .Fatalln "Update failed" "driver: bad connection" ∧
    (DeleteUser failingWritesDb "1" ()).outcome =
      .Fatalln "Delete failed" "driver: bad connection" :=
  ⟨UpdateUser_update_error_fatal failingWritesDb "1" ⟨0, "Ken", "Thompson"⟩ none () _
      (by decide) (by decide) (by decide) (by decide),
    DeleteUser_delete_error_fatal failingWritesDb "1" () _ (by decide) (by decide)⟩

/-! ## Store calls per request -/

/-- C10: every run of a handler issues at most two store calls and none twice;
`GetUsers`, `GetUser` and `PostUser` issue at most one; in `UpdateUser` and
`DeleteUser` a write, when issued, is the second call and follows the lookup,
which returned no error.  `c.Bind` issues no store call, so this holds whatever
it returns. -/
theorem store_calls_bounded {σ : Type} (dbmap : DbMap σ) (db : σ) (w id : String)
    (body : crudtest_struct) (bindErr : GoError) :
    ((GetUsers dbmap db).calls.length ≤ 1 ∧ (GetUser dbmap w db).calls.length ≤ 1 ∧
      (PostUser dbmap body bindErr db).calls.length ≤ 1) ∧
    ((UpdateUser dbmap id body bindErr db).calls.length ≤ 2 ∧
      (DeleteUser dbmap id db).calls.length ≤ 2) ∧
    ((GetUsers dbmap db).calls.Nodup ∧ (GetUser dbmap w db).calls.Nodup ∧
      (PostUser dbmap body bindErr db).calls.Nodup ∧ (UpdateUser dbmap id body bindErr db).calls.Nodup ∧
      (DeleteUser dbmap id db).calls.Nodup) ∧
    (∀ c ∈ (UpdateUser dbmap id body bindErr db).calls, c.isWrite = true →
      (UpdateUser dbmap id body bindErr db).calls =
          [.SelectOne "SELECT * FROM crudtest_struct WHERE id=?" id, c] ∧
        (∃ row, c = .Update row) ∧
        (dbmap.SelectOne "SELECT * FROM crudtest_struct WHERE id=?" id db).2 = none) ∧
    (∀ c ∈ (DeleteUser dbmap id db).calls, c.isWrite = true →
      (DeleteUser dbmap id db).calls =
          [.SelectOne "SELECT id FROM crudtest_struct WHERE id=?" id, c] ∧
        (∃ row, c = .Delete row) ∧
        (dbmap.SelectOne "SELECT id FROM crudtest_struct WHERE id=?" id db).2 = none) := by
  have hU : (UpdateUser dbmap id body bindErr db).calls =
        [.SelectOne "SELECT * FROM crudtest_struct WHERE id=?" id] ∨
      ((UpdateUser dbmap id body bindErr db).calls =
          [.SelectOne "SELECT * FROM crudtest_struct WHERE id=?" id,
            .Update ⟨(ParseInt id).1, body.Firstname, body.Lastname⟩] ∧
        (dbmap.SelectOne "SELECT * FROM crudtest_struct WHERE id=?" id db).2 = none) := by
    by_cases hl : (dbmap.SelectOne "SELECT * FROM crudtest_struct WHERE id=?" id db).2 = none
    · by_cases hv : body.Firstname ≠ "" ∧ body.Lastname ≠ ""
      · right
        refine ⟨?_, hl⟩
        rw [UpdateUser_of_valid dbmap id body bindErr db hl hv.1 hv.2]
        split <;> rfl
      · left
        rw [UpdateUser_of_empty dbmap id body bindErr db hl (by tauto)]
    · left
      rw [UpdateUser_of_lookup_error dbmap id body bindErr db hl]
  have hD : (DeleteUser dbmap id db).calls =
        [.SelectOne "SELECT id FROM crudtest_struct WHERE id=?" id] ∨
      ((DeleteUser dbmap id db).calls =
          [.SelectOne "SELECT id FROM crudtest_struct WHERE id=?" id,
            .Delete (dbmap.SelectOne "SELECT id FROM crudtest_struct WHERE id=?" id db).1] ∧
        (dbmap.SelectOne "SELECT id FROM crudtest_struct WHERE id=?" id db).2 = none) := by
    by_cases hl : (dbmap.SelectOne "SELECT id FROM crudtest_struct WHERE id=?" id db).2 = none
    · right
      refine ⟨?_, hl⟩
      rw [DeleteUser_of_found dbmap id db hl]
      split <;> rfl
    · left
      rw [DeleteUser_of_lookup_error dbmap id db hl]
  have hP := PostUser_calls dbmap body bindErr db
  have hG := (GetUsers_calls dbmap db)
  have hW := (GetUser_calls dbmap w db)
  refine ⟨⟨?_, ?_, ?_⟩, ⟨?_, ?_⟩, ⟨?_, ?_, ?_, ?_, ?_⟩, ?_, ?_⟩
  · rw [hG]; simp
  · rw [hW]; simp
  · rcases hP with h | ⟨h, -⟩ <;> rw [h] <;> simp
  · rcases hU with h | ⟨h, -⟩ <;> rw [h] <;> simp
  · rcases hD with h | ⟨h, -⟩ <;> rw [h] <;> simp
  · rw [hG]; simp
  · rw [hW]; simp
  · rcases hP with h | ⟨h, -⟩ <;> rw [h] <;> simp
  · rcases hU with h | ⟨h, -⟩ <;> rw [h] <;> simp
  · rcases hD with h | ⟨h, -⟩ <;> rw [h] <;> simp
  · intro c hc hw
    rcases hU with h | ⟨h, hl⟩
    · rw [h] at hc
      simp only [List.mem_singleton] at hc
      subst hc
      cases hw
    · rw [h] at hc ⊢
      simp only [List.mem_cons, List.mem_singleton, List.not_mem_nil, or_false] at hc
      rcases hc with hc | hc
      · subst hc
        cases hw
      · subst hc
        exact ⟨rfl, ⟨_, rfl⟩, hl⟩
  · intro c hc hw
    rcases hD with h | ⟨h, hl⟩
    · rw [h] at hc
      simp only [List.mem_singleton] at hc
      subst hc
      cases hw
    · rw [h] at hc ⊢
      simp only [List.mem_cons, List.mem_singleton, List.not_mem_nil, or_false] at hc
      rcases hc with hc | hc
      · subst hc
        cases hw
      · subst hc
        exact ⟨rfl, ⟨_, rfl⟩, hl⟩

/-- C10 witness: `PUT /api/10` with a valid body on the sample table issues the
lookup, which returns no error, and then the update, once. -/
theorem store_calls_bounded_witness :
    StoreCall.Update ⟨10, "Dennis", "Ritchie"⟩ ∈
      (UpdateUser tableDb "10" ⟨0, "Dennis", "Ritchie"⟩ none sampleTable).calls ∧
    (UpdateUser tableDb "10" ⟨0, "Dennis", "Ritchie"⟩ none sampleTable).calls =
      [.SelectOne "SELECT * FROM crudtest_struct WHERE id=?" "10",
        .Update ⟨10, "Dennis", "Ritchie"⟩] ∧
    (tableDb.SelectOne "SELECT * FROM crudtest_struct WHERE id=?" "10" sampleTable).2 = none :=
  ⟨by decide,
    ((store_calls_bounded tableDb sampleTable "id=1" "10" ⟨0, "Dennis", "Ritchie"⟩ none).2.2.2.1
      (.Update ⟨10, "Dennis", "Ritchie"⟩) (by decide) rfl).1,
    ((store_calls_bounded tableDb sampleTable "id=1" "10" ⟨0, "Dennis", "Ritchie"⟩ none).2.2.2.1
      (.Update ⟨10, "Dennis", "Ritchie"⟩) (by decide) rfl).2.2⟩

end GoRESTful
